import Mathlib

/-!
Verification of the Infinity Assistant python SDK
(`infinity_assistant/client.py`, `infinity_assistant/async_client.py`,
`infinity_assistant/exceptions.py`).

The development shallowly embeds the request executor (`_request`) and the
SSE streaming decoder (`chat_stream`) of both the synchronous and the
asynchronous client.  JSON values are modelled by an inductive `Json` type;
the Python value `None` is identified with `Json.null` (exactly what
`json.loads` produces for a JSON `null`, and what `dict.get` returns for a
missing key).  The network is modelled by an oracle: a list of transport
results, one per attempt; JSON decoding of response bodies is part of the
oracle (`Option Json`, `none` meaning the body fails to parse as JSON).
The stdlib `json.loads` used by the streaming decoder is an external
library, modelled as a parameter `p : List Char → Option Json` of the
decoder; concrete instantiations used in examples are given by `demoParse`.
-/

/-- Model of a decoded JSON value (the result of `json.loads`).
Numbers are modelled by `Rat` (covering ints and decimal floats).
An object is an association list of key/value pairs; the JSON objects in
scope have pairwise distinct keys. -/
inductive Json where
  | null
  | bool (b : Bool)
  | num (q : Rat)
  | str (s : String)
  | arr (elements : List Json)
  | obj (fields : List (String × Json))

/-- Python truthiness (`bool(x)`) of a decoded JSON value:
`None`, `False`, `0`, `""`, `[]` and `\x7b\x7d` are falsy. -/
def pyTruthy : Json → Bool
  | .null => false
  | .bool b => b
  | .num q => decide (q ≠ 0)
  | .str s => decide (s ≠ "")
  | .arr xs => !xs.isEmpty
  | .obj fs => !fs.isEmpty

/-- `d.get(k)` on a decoded JSON object: the value of the key, `Json.null`
(Python `None`) when the key is absent.  Only ever applied to objects in the
embedded code; the source raises `AttributeError` on non-dicts, which the
callers model explicitly via `isObj`. -/
def pyGet (j : Json) (k : String) : Json :=
  match j with
  | .obj fs => match fs.lookup k with
    | some v => v
    | none => .null
  | _ => .null

/-- `d.get(k, dflt)` on a decoded JSON object: the value of the key when
present (even if `null`), else the default. -/
def pyGetD (j : Json) (k : String) (dflt : Json) : Json :=
  match j with
  | .obj fs => match fs.lookup k with
    | some v => v
    | none => dflt
  | _ => dflt

/-- Python `x or y` on decoded JSON values: `x` when truthy, else `y`. -/
def pyOr (a b : Json) : Json :=
  if pyTruthy a then a else b

/-- Whether the decoded value is a dict (has a `.get` method). -/
def isObj : Json → Bool
  | .obj _ => true
  | _ => false

/-- Model of Python's `parsed.get("type") == "error"`: true exactly when the
`type` key holds the string `"error"`. -/
def isErrorType (j : Json) : Bool :=
  match pyGet j "type" with
  | .str s => decide (s = "error")
  | _ => false

/-- ASCII whitespace stripped by Python's `int(str)`. -/
def isSpaceChar (c : Char) : Bool :=
  c = ' ' || c = '\t' || c = '\n' || c = '\x0d' || c = '\x0b' || c = '\x0c'

/-- Digit run accumulator for `int(str)`: after a digit, a single underscore
may occur but must be followed by another digit. -/
def digitsAux : Nat → List Char → Option Nat
  | acc, [] => some acc
  | acc, c :: rest =>
    if c.isDigit then digitsAux (acc * 10 + (c.toNat - 48)) rest
    else if c = '_' then
      match rest with
      | d :: rest2 =>
        if d.isDigit then digitsAux (acc * 10 + (d.toNat - 48)) rest2 else none
      | [] => none
    else none

/-- A non-empty digit run (with Python 3 underscore grouping), starting with
a digit. -/
def parsePyDigits : List Char → Option Nat
  | [] => none
  | c :: rest => if c.isDigit then digitsAux (c.toNat - 48) rest else none

/-- Model of Python's `int(s)` on a string: strips ASCII whitespace, accepts
an optional sign and a run of decimal digits (underscore grouping allowed);
`none` models the `ValueError` raised on any other input.  (Non-ASCII
digits and whitespace accepted by CPython are outside the model's scope;
no claim depends on them.) -/
def pyInt (s : String) : Option Int :=
  let cs := ((s.toList.dropWhile isSpaceChar).reverse.dropWhile isSpaceChar).reverse
  match cs with
  | '+' :: rest => (parsePyDigits rest).map (fun n => (n : Int))
  | '-' :: rest => (parsePyDigits rest).map (fun n => -(n : Int))
  | _ => (parsePyDigits cs).map (fun n => (n : Int))

/-! ## The streaming decoder (`chat_stream`) -/

/-- One decoded stream event as yielded by `chat_stream` (the dicts
`\x7b"type": ...\x7d` of the source, as a tagged union). -/
inductive Chunk where
  | text (content : Json)
  | metadata (metadata : Json)
  | done
  | error (error : Json)

/-- How the generator's iteration ends: normally (including after `break`),
or by an uncaught `AttributeError` (`.get` called on a non-dict payload). -/
inductive StreamEnd where
  | normalEnd
  | crashed
deriving DecidableEq

/-- `line_str.startswith("data: ")` combined with `line_str[6:]`: the
payload when the line carries the SSE data marker. -/
def dataPayload : List Char → Option (List Char)
  | 'd' :: 'a' :: 't' :: 'a' :: ':' :: ' ' :: rest => some rest
  | _ => none

/-- The characters of the sentinel payload `[DONE]`. -/
def doneChars : List Char := ['[', 'D', 'O', 'N', 'E', ']']

/-- The chunks a single successfully decoded object line contributes when it
is not an error frame: a text chunk when `content` is truthy, then a
metadata chunk when `metadata` is truthy. -/
def lineChunks (j : Json) : List Chunk :=
  (if pyTruthy (pyGet j "content") then [Chunk.text (pyGet j "content")] else [])
    ++ (if pyTruthy (pyGet j "metadata") then [Chunk.metadata (pyGet j "metadata")] else [])

/-- The synchronous decoder loop of `InfinityAssistantClient.chat_stream`
(client.py, lines 195-223), over the lines yielded by
`response.iter_lines()` (line terminators already stripped), parameterized
by the JSON parser `p` (modelling `json.loads`).  Returns the yielded
chunks in order together with how the iteration ended.  Faithful points:
blank lines are skipped; a `[DONE]` payload yields a done chunk and breaks,
after which the post-loop `yield` emits a second done chunk; an error frame
yields the error chunk, breaks, and likewise is followed by the post-loop
done chunk; a payload that decodes to a non-dict raises `AttributeError`
(modelled by `StreamEnd.crashed`). -/
def syncStream (p : List Char → Option Json) : List (List Char) → List Chunk × StreamEnd
  | [] => ([Chunk.done], .normalEnd)
  | line :: rest =>
    if line.isEmpty then syncStream p rest
    else
      match dataPayload line with
      | none => syncStream p rest
      | some payload =>
        if payload = doneChars then ([Chunk.done, Chunk.done], .normalEnd)
        else
          match p payload with
          | none => syncStream p rest
          | some j =>
            if isObj j then
              if isErrorType j then
                ([Chunk.error (pyGetD j "error" (Json.str "Unknown error")), Chunk.done],
                  .normalEnd)
              else
                let res := syncStream p rest
                (lineChunks j ++ res.1, res.2)
            else ([], .crashed)

/-- The asynchronous decoder loop of `AsyncInfinityAssistantClient.chat_stream`
(async_client.py, lines 181-206), over the lines as delivered by
`async for line in response.content` — which, unlike `iter_lines`, keeps
the trailing newline on every line.  There is no blank-line test in the
async source; a bare newline simply fails the `data: ` check. -/
def asyncStreamCore (p : List Char → Option Json) : List (List Char) → List Chunk × StreamEnd
  | [] => ([Chunk.done], .normalEnd)
  | line :: rest =>
    match dataPayload line with
    | none => asyncStreamCore p rest
    | some payload =>
      if payload = doneChars then ([Chunk.done, Chunk.done], .normalEnd)
      else
        match p payload with
        | none => asyncStreamCore p rest
        | some j =>
          if isObj j then
            if isErrorType j then
              ([Chunk.error (pyGetD j "error" (Json.str "Unknown error")), Chunk.done],
                .normalEnd)
            else
              let res := asyncStreamCore p rest
              (lineChunks j ++ res.1, res.2)
          else ([], .crashed)

/-- The async decoder applied to a wire of newline-terminated frames: each
frame `l` of the wire arrives at the loop as `l ++ "\n"`.  On the same wire
the sync client's `iter_lines` delivers exactly `l`. -/
def asyncStream (p : List Char → Option Json) (wire : List (List Char)) :
    List Chunk × StreamEnd :=
  asyncStreamCore p (wire.map (fun l => l ++ ['\n']))

/-! ## The request executor (`_request`) -/

/-- The client configuration fields relevant to `_request` (timeout and url
building do not influence the classification logic being verified). -/
structure Config where
  maxRetries : Nat
  retryDelay : Rat

/-- One HTTP response as seen by `_request`: the status code, the optional
`Retry-After` header, and the result of parsing the body as JSON (`none`
when `response.json()` raises). -/
structure HttpResp where
  status : Nat
  retryAfter : Option String
  body : Option Json

/-- The outcome of one transport attempt, as classified by the `except`
clauses of `_request`: a response, a timeout
(`requests.exceptions.Timeout` / `asyncio.TimeoutError`), or another
connection-level failure (`requests.exceptions.RequestException` /
`aiohttp.ClientError`) carrying its description `str(e)`. -/
inductive TransportResult where
  | resp (r : HttpResp)
  | timedOut
  | netFail (msg : String)

/-- Discriminant of the exception classes in `exceptions.py`. -/
inductive ErrKind where
  | generic
  | rateLimit
  | timeoutKind
  | network
deriving DecidableEq

/-- The fields of `InfinityAssistantError` and its subclasses
(`exceptions.py`): `message` and `code` are decoded JSON values
(`Json.null` standing for Python `None`), `statusCode` is the optional
integer status, `rawResponse` the optional parsed error body. -/
structure ApiErr where
  message : Json
  code : Json
  statusCode : Option Nat
  rawResponse : Option Json
  kind : ErrKind

/-- `InfinityAssistantRateLimitError()` as raised by `_request`. -/
def rateLimitErr : ApiErr :=
  ⟨Json.str "Rate limit exceeded. Please try again later.",
    Json.str "RATE_LIMIT", some 429, none, .rateLimit⟩

/-- `InfinityAssistantTimeoutError("Request timeout")`. -/
def timeoutErr : ApiErr :=
  ⟨Json.str "Request timeout", Json.str "TIMEOUT", some 408, none, .timeoutKind⟩

/-- `InfinityAssistantNetworkError(f"Network error: \x7bstr(e)\x7d")`. -/
def networkErr (m : String) : ApiErr :=
  ⟨Json.str ("Network error: " ++ m), Json.str "NETWORK_ERROR", some 0, none, .network⟩

/-- The generic `InfinityAssistantError` built from a non-ok response with
parsed (or substituted) error body `ed`. -/
def genericErr (status : Nat) (ed : Json) : ApiErr :=
  ⟨pyOr (pyGet ed "message") (pyOr (pyGet ed "error") (Json.str "Request failed")),
    pyGet ed "code", some status, some ed, .generic⟩

/-- The terminal `InfinityAssistantNetworkError` reached (sync client,
requests >= 2.27) when a success-status body repeatedly fails to
JSON-decode: `requests.exceptions.JSONDecodeError` is a
`RequestException`, so the generic retry path runs and finally wraps the
decode error's text (abstracted here; no claim depends on it). -/
def bodyParseNetworkErr : ApiErr :=
  ⟨Json.str "Network error: body JSON decode failure",
    Json.str "NETWORK_ERROR", some 0, none, .network⟩

/-- How one call of `_request` (after retries) returns to the caller. -/
inductive ReqOutcome where
  | success (body : Json)
  | failure (e : ApiErr)
  | crashValue
  | crashJson
  | crashAttr
  | noResult

/-- Whether the outcome is the success return of the parsed body. -/
def isSuccessOutcome : ReqOutcome → Bool
  | .success _ => true
  | _ => false

/-- `response.ok` of the `requests` library: false exactly for statuses in
`[400, 600)` (`raise_for_status` raises only for those). -/
def syncOk (s : Nat) : Bool := s < 400 || 600 ≤ s

/-- `response.ok` of `aiohttp`: status strictly below 400. -/
def asyncOk (s : Nat) : Bool := s < 400

/-- The substituted error body `\x7b"error": "Unknown error"\x7d` used when
the error response body fails to parse as JSON. -/
def unknownErrorBody : Json := Json.obj [("error", Json.str "Unknown error")]

/-- The delay computed on a 429 response:
`int(retry_after) if retry_after else self.retry_delay`.  `none` models the
uncaught `ValueError` raised by `int()` on a non-empty, non-integer
header value.  An absent or empty (falsy) header falls back to the
configured delay. -/
def delay429 (cfg : Config) : Option String → Option Rat
  | none => some cfg.retryDelay
  | some s => if s = "" then some cfg.retryDelay
              else (pyInt s).map (fun n => (n : Rat))

/-- `InfinityAssistantClient._request` (client.py, lines 88-147) against a
transport oracle: the list supplies the outcome of each successive attempt.
Returns the final outcome together with the sequence of `time.sleep`
arguments.  Faithful points: a 429 computes the delay (possibly raising
`ValueError`) before checking the retry budget; `time.sleep` of a negative
delay raises `ValueError`; an error-status body that is JSON but not a dict
makes the subsequent `.get` raise `AttributeError`; raising the generic
`InfinityAssistantError` is not intercepted by the `except` clauses, so no
retry happens on that path. -/
def syncRequest (cfg : Config) : List TransportResult → Nat → ReqOutcome × List Rat
  | [], _ => (.noResult, [])
  | .timedOut :: _, _ => (.failure timeoutErr, [])
  | .netFail m :: rest, rc =>
    if rc < cfg.maxRetries then
      let d := cfg.retryDelay * ((rc : Rat) + 1)
      if d < 0 then (.crashValue, [])
      else
        let res := syncRequest cfg rest (rc + 1)
        (res.1, d :: res.2)
    else (.failure (networkErr m), [])
  | .resp r :: rest, rc =>
    if r.status = 429 then
      match delay429 cfg r.retryAfter with
      | none => (.crashValue, [])
      | some d =>
        if rc < cfg.maxRetries then
          if d < 0 then (.crashValue, [])
          else
            let res := syncRequest cfg rest (rc + 1)
            (res.1, d :: res.2)
        else (.failure rateLimitErr, [])
    else if syncOk r.status then
      match r.body with
      | some j => (.success j, [])
      | none =>
        if rc < cfg.maxRetries then
          let d := cfg.retryDelay * ((rc : Rat) + 1)
          if d < 0 then (.crashValue, [])
          else
            let res := syncRequest cfg rest (rc + 1)
            (res.1, d :: res.2)
        else (.failure bodyParseNetworkErr, [])
    else
      let ed := r.body.getD unknownErrorBody
      if isObj ed then (.failure (genericErr r.status ed), [])
      else (.crashAttr, [])

/-- `AsyncInfinityAssistantClient._request` (async_client.py, lines
94-150).  Differences from the sync variant: `asyncio.sleep` accepts
negative delays (no crash); `response.ok` is `status < 400`; a
success-status body that fails to JSON-decode raises
`json.JSONDecodeError`, which is not an `aiohttp.ClientError` and so
escapes uncaught (assuming the server's `application/json` content type). -/
def asyncRequest (cfg : Config) : List TransportResult → Nat → ReqOutcome × List Rat
  | [], _ => (.noResult, [])
  | .timedOut :: _, _ => (.failure timeoutErr, [])
  | .netFail m :: rest, rc =>
    if rc < cfg.maxRetries then
      let res := asyncRequest cfg rest (rc + 1)
      (res.1, cfg.retryDelay * ((rc : Rat) + 1) :: res.2)
    else (.failure (networkErr m), [])
  | .resp r :: rest, rc =>
    if r.status = 429 then
      match delay429 cfg r.retryAfter with
      | none => (.crashValue, [])
      | some d =>
        if rc < cfg.maxRetries then
          let res := asyncRequest cfg rest (rc + 1)
          (res.1, d :: res.2)
        else (.failure rateLimitErr, [])
    else if asyncOk r.status then
      match r.body with
      | some j => (.success j, [])
      | none => (.crashJson, [])
    else
      let ed := r.body.getD unknownErrorBody
      if isObj ed then (.failure (genericErr r.status ed), [])
      else (.crashAttr, [])

/-! ## Concrete wire material for the examples of the spec -/

/-- A `data: ` line around the given payload, as it appears on the wire
(without the terminating newline). -/
def dataLine (payload : List Char) : List Char :=
  'd' :: 'a' :: 't' :: 'a' :: ':' :: ' ' :: payload

/-- Opening brace character (written via its code point). -/
def lb : Char := '\x7b'

/-- Closing brace character. -/
def rb : Char := '\x7d'

/-- Double quote character. -/
def qm : Char := '\"'

/-- Newline character. -/
def nl : Char := '\n'

/-- The payload `\x7b"content":"Hi"\x7d`. -/
def payloadHi : List Char :=
  [lb, qm] ++ "content".toList ++ [qm, ':', qm] ++ "Hi".toList ++ [qm, rb]

/-- The payload `\x7b"content":" there"\x7d`. -/
def payloadThere : List Char :=
  [lb, qm] ++ "content".toList ++ [qm, ':', qm] ++ " there".toList ++ [qm, rb]

/-- The payload `\x7b"type":"error","error":"boom"\x7d`. -/
def payloadBoom : List Char :=
  [lb, qm] ++ "type".toList ++ [qm, ':', qm] ++ "error".toList
    ++ [qm, ',', qm] ++ "error".toList ++ [qm, ':', qm] ++ "boom".toList ++ [qm, rb]

/-- The payload `not-json`. -/
def payloadNotJson : List Char := "not-json".toList

/-- A concrete stand-in for `json.loads` on the payloads occurring in the
spec's examples.  A trailing newline is JSON whitespace, so the variant of
each payload with a trailing `\n` (as seen by the async client) decodes to
the same value.  `[DONE]`, `not-json` and every other string out of the
table fail to decode, as they do under `json.loads`. -/
def demoParse (payload : List Char) : Option Json :=
  if payload = payloadHi ∨ payload = payloadHi ++ [nl] then
    some (Json.obj [("content", Json.str "Hi")])
  else if payload = payloadThere ∨ payload = payloadThere ++ [nl] then
    some (Json.obj [("content", Json.str " there")])
  else if payload = payloadBoom ∨ payload = payloadBoom ++ [nl] then
    some (Json.obj [("type", Json.str "error"), ("error", Json.str "boom")])
  else if payload = ['5'] ∨ payload = ['5', nl] then
    some (Json.num 5)
  else none

/-- The three-frame wire of the spec's streaming example:
`data: \x7b"content":"Hi"\x7d`, `data: \x7b"content":" there"\x7d`,
`data: [DONE]`. -/
def demoWire : List (List Char) :=
  [dataLine payloadHi, dataLine payloadThere, dataLine doneChars]

/-- Lines whose processing cannot break out of the decoding loop nor crash
it: blank or non-`data: ` lines, payloads that fail to decode, and decoded
objects that are neither `[DONE]` sentinels nor error frames. -/
def safeLine (p : List Char → Option Json) (line : List Char) : Bool :=
  match dataPayload line with
  | none => true
  | some payload =>
    if payload = doneChars then false
    else
      match p payload with
      | none => true
      | some j => isObj j && !isErrorType j

/-- A transport result within the envelope on which the sync and async
executors coincide: responses whose body parses as JSON, whose status is
below 600, and whose `Retry-After` header (if any) is empty or a
non-negative integer. -/
def tameResult : TransportResult → Bool
  | .resp r =>
    r.body.isSome && r.status < 600 &&
      (match r.retryAfter with
       | none => true
       | some s => s = "" || (match pyInt s with
                              | some n => decide (0 ≤ n)
                              | none => false))
  | _ => true

/-- `base_url.rstrip("/")` as performed in both `__init__`s: trailing
slashes removed. -/
def rstripSlash (s : String) : String :=
  ⟨(s.toList.reverse.dropWhile (fun c => c == '/')).reverse⟩

/-- `InfinityAssistantClient._get_headers` (client.py, lines 81-86):
`Content-Type: application/json` always, `X-API-Key` exactly when the
configured api_key is truthy (neither `None` nor empty). -/
def syncHeaders (apiKey : Option String) : List (String × String) :=
  match apiKey with
  | none => [("Content-Type", "application/json")]
  | some k =>
    if k = "" then [("Content-Type", "application/json")]
    else [("Content-Type", "application/json"), ("X-API-Key", k)]

/-- `AsyncInfinityAssistantClient._get_headers` (async_client.py, lines
87-92), a verbatim copy of the sync client's. -/
def asyncHeaders (apiKey : Option String) : List (String × String) :=
  match apiKey with
  | none => [("Content-Type", "application/json")]
  | some k =>
    if k = "" then [("Content-Type", "application/json")]
    else [("Content-Type", "application/json"), ("X-API-Key", k)]

/-- One outgoing request at the level the SDK determines it: HTTP method,
the URL `base_url.rstrip("/") + endpoint`, the query parameters in
insertion order, the headers in insertion order, and the optional JSON
body.  The byte-level percent-encoding of the query pairs into the URL is
performed by the HTTP library, not by the SDK — urllib's `urlencode` in the
sync client, aiohttp/yarl in the async client — over exactly these pairs
in this order. -/
structure BuiltRequest where
  method : String
  url : String
  queryParams : List (String × String)
  headers : List (String × String)
  jsonBody : Option Json

/-- The request assembled by `InfinityAssistantClient._request` (client.py,
lines 96-110): `url = f"\x7bself.base_url\x7d\x7bendpoint\x7d"`, with the
params appended to the URL as `urlencode(params)` when present (the pairs
are recorded here; their percent-encoding is urllib's), headers from
`_get_headers`, and `data` JSON-encoded by `requests` when present. -/
def syncBuildRequest (apiKey : Option String) (baseUrl meth endpoint : String)
    (params : List (String × String)) (data : Option Json) : BuiltRequest :=
  ⟨meth, rstripSlash baseUrl ++ endpoint, params, syncHeaders apiKey, data⟩

/-- The request assembled by `AsyncInfinityAssistantClient._request`
(async_client.py, lines 103-113): `url = f"\x7bself.base_url\x7d\x7bendpoint\x7d"`,
with `params` handed to `aiohttp`, which encodes the same pairs into the
URL's query via yarl, headers from `_get_headers`, `data` JSON-encoded by
`aiohttp` when present. -/
def asyncBuildRequest (apiKey : Option String) (baseUrl meth endpoint : String)
    (params : List (String × String)) (data : Option Json) : BuiltRequest :=
  ⟨meth, rstripSlash baseUrl ++ endpoint, params, asyncHeaders apiKey, data⟩

/-! ## Helper lemmas -/

/-- A newline-terminated payload is never the bare `[DONE]` sentinel, which
is why the async client never recognizes the sentinel. -/
theorem append_nl_ne_done (xs : List Char) : xs ++ [nl] ≠ doneChars := by
  intro h
  have h1 : (xs ++ [nl]).getLast? = some nl :=
    List.getLast?_append_of_ne_nil xs (by simp)
  rw [h] at h1
  exact absurd h1 (by decide)

/-- Unfolding of the sync decoder on a `data: ` line whose payload decodes
to a non-error object: the line's chunks are emitted and the loop goes on. -/
theorem syncStream_cons_obj (p : List Char → Option Json) (payload : List Char)
    (rest : List (List Char)) (j : Json) (hparse : p payload = some j)
    (hdone : payload ≠ doneChars) (hobj : isObj j = true) (herr : isErrorType j = false) :
    syncStream p (dataLine payload :: rest)
      = (lineChunks j ++ (syncStream p rest).1, (syncStream p rest).2) := by
  simp [syncStream, dataLine, dataPayload, hparse, hdone, hobj, herr]

/-- Unfolding of the sync decoder on a `data: [DONE]` line: one done chunk
from the sentinel, then the post-loop synthetic done chunk. -/
theorem syncStream_cons_done (p : List Char → Option Json) (rest : List (List Char)) :
    syncStream p (dataLine doneChars :: rest) = ([Chunk.done, Chunk.done], .normalEnd) := by
  simp [syncStream, dataLine, dataPayload]

/-- Unfolding of the async decoder loop on a delivered line whose payload
(newline included) decodes to a non-error object. -/
theorem asyncCore_cons_obj (p : List Char → Option Json) (payload : List Char)
    (rest : List (List Char)) (j : Json) (hparse : p (payload ++ [nl]) = some j)
    (hobj : isObj j = true) (herr : isErrorType j = false) :
    asyncStreamCore p ((dataLine payload ++ [nl]) :: rest)
      = (lineChunks j ++ (asyncStreamCore p rest).1, (asyncStreamCore p rest).2) := by
  have hd : dataLine payload ++ [nl] = dataLine (payload ++ [nl]) := rfl
  rw [hd]
  simp [asyncStreamCore, dataPayload, dataLine, hparse, append_nl_ne_done payload, hobj, herr]

/-- Unfolding of the async decoder loop on a delivered line whose payload
(newline included) fails to decode — in particular `data: [DONE]` frames. -/
theorem asyncCore_cons_skip (p : List Char → Option Json) (payload : List Char)
    (rest : List (List Char)) (hparse : p (payload ++ [nl]) = none) :
    asyncStreamCore p ((dataLine payload ++ [nl]) :: rest) = asyncStreamCore p rest := by
  have hd : dataLine payload ++ [nl] = dataLine (payload ++ [nl]) := rfl
  rw [hd]
  simp [asyncStreamCore, dataPayload, dataLine, hparse, append_nl_ne_done payload]

/-! ## Claim C5 -/

/-- Claim C5, counterexample.  On the stream consisting of the single line
`data: \x7b"type":"error","error":"boom"\x7d` the decoder yields
`Error\x7b"boom"\x7d` but does NOT terminate right after it: the `break`
only leaves the loop, and the post-loop `yield` emits one more `Done`
chunk, so the claim's "emitting nothing after that Error chunk" is false. -/
theorem C5_counterexample :
    syncStream demoParse [dataLine payloadBoom]
      = ([Chunk.error (Json.str "boom"), Chunk.done], .normalEnd) ∧
    ¬ syncStream demoParse [dataLine payloadBoom]
      = ([Chunk.error (Json.str "boom")], .normalEnd) := by
  refine ⟨rfl, fun h => absurd (congrArg (fun x => x.1.length) h) (by decide)⟩

/-- Claim C5, amended: a line whose decoded payload is an object with
`type = "error"` makes the decoder yield `Error` with the payload's
`error` field (default `"Unknown error"`), stop processing every further
line, and then emit exactly one post-loop `Done` chunk before terminating
(rather than terminating immediately after the Error chunk).  The same
holds for the async decoder, whose delivered lines carry the trailing
newline. -/
theorem C5_error_frame_stops_with_trailing_done (p : List Char → Option Json)
    (payload : List Char) (rest rest2 : List (List Char)) (j j2 : Json)
    (hparse : p payload = some j) (hobj : isObj j = true) (herr : isErrorType j = true)
    (hdone : payload ≠ doneChars)
    (hparse2 : p (payload ++ [nl]) = some j2) (hobj2 : isObj j2 = true)
    (herr2 : isErrorType j2 = true) :
    syncStream p (dataLine payload :: rest)
      = ([Chunk.error (pyGetD j "error" (Json.str "Unknown error")), Chunk.done], .normalEnd) ∧
    asyncStream p (dataLine payload :: rest2)
      = ([Chunk.error (pyGetD j2 "error" (Json.str "Unknown error")), Chunk.done], .normalEnd) := by
  constructor
  · simp [syncStream, dataLine, dataPayload, hparse, hdone, hobj, herr]
  · show asyncStreamCore p ((dataLine payload ++ [nl]) :: rest2.map (fun l => l ++ [nl]))
      = ([Chunk.error (pyGetD j2 "error" (Json.str "Unknown error")), Chunk.done], .normalEnd)
    have hd : dataLine payload ++ [nl] = dataLine (payload ++ [nl]) := rfl
    rw [hd]
    simp [asyncStreamCore, dataLine, dataPayload, hparse2, append_nl_ne_done payload,
      hobj2, herr2]

/-- Claim C5, witness for the amended theorem at the spec's example frame. -/
theorem C5_witness :
    demoParse payloadBoom
        = some (Json.obj [("type", Json.str "error"), ("error", Json.str "boom")]) ∧
    syncStream demoParse (dataLine payloadBoom :: [dataLine payloadHi])
        = ([Chunk.error (Json.str "boom"), Chunk.done], .normalEnd) ∧
    asyncStream demoParse (dataLine payloadBoom :: [dataLine payloadHi])
        = ([Chunk.error (Json.str "boom"), Chunk.done], .normalEnd) :=
  ⟨rfl,
    C5_error_frame_stops_with_trailing_done demoParse payloadBoom
      [dataLine payloadHi] [dataLine payloadHi]
      (Json.obj [("type", Json.str "error"), ("error", Json.str "boom")])
      (Json.obj [("type", Json.str "error"), ("error", Json.str "boom")])
      rfl rfl rfl (by decide) rfl rfl rfl⟩

/-! ## Claim C6 -/

/-- Claim C6, counterexample.  On the three-line stream
`data: \x7b"content":"Hi"\x7d`, `data: \x7b"content":" there"\x7d`,
`data: [DONE]` the sync decoder yields FOUR chunks — after the `Done`
produced by the `[DONE]` sentinel and the `break`, the post-loop `yield`
emits a second `Done` — so "yields Text, Text, Done ... and then terminates
without emitting anything further" is false. -/
theorem C6_counterexample :
    syncStream demoParse demoWire
      = ([Chunk.text (Json.str "Hi"), Chunk.text (Json.str " there"),
          Chunk.done, Chunk.done], .normalEnd) ∧
    ¬ syncStream demoParse demoWire
      = ([Chunk.text (Json.str "Hi"), Chunk.text (Json.str " there"), Chunk.done],
          .normalEnd) := by
  refine ⟨rfl, fun h => absurd (congrArg (fun x => x.1.length) h) (by decide)⟩

/-- Claim C6, amended: on that stream the sync decoder yields
`Text\x7b"Hi"\x7d`, `Text\x7b" there"\x7d`, `Done`, and one additional
post-loop `Done`, in that order, processing nothing after the `[DONE]`
line; the async decoder — whose lines keep the trailing newline, so the
`[DONE]` sentinel is never matched and the frame is skipped as malformed
JSON — yields `Text\x7b"Hi"\x7d`, `Text\x7b" there"\x7d` and only the one
synthetic post-loop `Done`.  Stated for every parser `p` that decodes the
three payloads the way `json.loads` does. -/
theorem C6_trace (p : List Char → Option Json)
    (h1 : p payloadHi = some (Json.obj [("content", Json.str "Hi")]))
    (h2 : p payloadThere = some (Json.obj [("content", Json.str " there")]))
    (h1n : p (payloadHi ++ [nl]) = some (Json.obj [("content", Json.str "Hi")]))
    (h2n : p (payloadThere ++ [nl]) = some (Json.obj [("content", Json.str " there")]))
    (h3n : p (doneChars ++ [nl]) = none) :
    syncStream p demoWire
      = ([Chunk.text (Json.str "Hi"), Chunk.text (Json.str " there"),
          Chunk.done, Chunk.done], .normalEnd) ∧
    asyncStream p demoWire
      = ([Chunk.text (Json.str "Hi"), Chunk.text (Json.str " there"), Chunk.done],
          .normalEnd) := by
  constructor
  · show syncStream p (dataLine payloadHi :: [dataLine payloadThere, dataLine doneChars])
      = _
    rw [syncStream_cons_obj p payloadHi _ _ h1 (by decide) rfl rfl,
      syncStream_cons_obj p payloadThere _ _ h2 (by decide) rfl rfl,
      syncStream_cons_done]
    rfl
  · show asyncStreamCore p ((dataLine payloadHi ++ [nl]) ::
        [dataLine payloadThere ++ [nl], dataLine doneChars ++ [nl]]) = _
    rw [asyncCore_cons_obj p payloadHi _ _ h1n rfl rfl,
      asyncCore_cons_obj p payloadThere _ _ h2n rfl rfl,
      asyncCore_cons_skip p doneChars _ h3n]
    rfl

/-- Claim C6, witness for the amended theorem at the concrete parser. -/
theorem C6_witness :
    syncStream demoParse demoWire
      = ([Chunk.text (Json.str "Hi"), Chunk.text (Json.str " there"),
          Chunk.done, Chunk.done], .normalEnd) ∧
    asyncStream demoParse demoWire
      = ([Chunk.text (Json.str "Hi"), Chunk.text (Json.str " there"), Chunk.done],
          .normalEnd) :=
  C6_trace demoParse rfl rfl rfl rfl rfl

/-! ## Claim C7 -/

/-- Claim C7, counterexample.  The stream consisting of the single line
`data: 5` ends without ever producing a `[DONE]` payload or an error-typed
chunk, so the claim promises a final synthetic `Done`; but the decoder
instead crashes with an uncaught `AttributeError` (`5` decodes fine and is
not a dict), yielding no chunk at all, so its last yielded chunk is not
`Done`. -/
theorem C7_counterexample :
    syncStream demoParse [dataLine ['5']] = ([], .crashed) ∧
    ¬ ((syncStream demoParse [dataLine ['5']]).2 = .normalEnd ∧
        (syncStream demoParse [dataLine ['5']]).1.getLast? = some Chunk.done) := by
  exact ⟨rfl, fun h => absurd h.1 (by decide)⟩

/-- Over safe lines the sync decoder loop exits naturally and the post-loop
synthetic `Done` is the last yielded chunk. -/
theorem syncStream_safe_end (p : List Char → Option Json)
    (ls : List (List Char)) (hsafe : ls.all (safeLine p) = true) :
    (syncStream p ls).2 = .normalEnd ∧
    (syncStream p ls).1.getLast? = some Chunk.done := by
  induction ls with
  | nil => exact ⟨rfl, rfl⟩
  | cons line rest ih =>
    rw [List.all_cons, Bool.and_eq_true] at hsafe
    obtain ⟨h1, h2⟩ := hsafe
    have ih2 := ih h2
    by_cases hemp : line.isEmpty
    · simpa [syncStream, hemp] using ih2
    · rcases hdp : dataPayload line with _ | payload
      · simpa [syncStream, hemp, hdp] using ih2
      · simp only [safeLine, hdp] at h1
        by_cases hd : payload = doneChars
        · rw [if_pos hd] at h1
          exact absurd h1 (by simp)
        · rw [if_neg hd] at h1
          rcases hp : p payload with _ | j
          · rw [hp] at h1
            simpa [syncStream, hemp, hdp, hd, hp] using ih2
          · rw [hp] at h1
            rw [Bool.and_eq_true] at h1
            obtain ⟨hobj, herr⟩ := h1
            rw [Bool.not_eq_true'] at herr
            have hres : syncStream p (line :: rest)
                = (lineChunks j ++ (syncStream p rest).1, (syncStream p rest).2) := by
              simp [syncStream, hemp, hdp, hd, hp, hobj, herr]
            rw [hres]
            refine ⟨ih2.1, ?_⟩
            have hne : (syncStream p rest).1 ≠ [] := by
              intro hc
              rw [hc] at ih2
              exact absurd ih2.2 (by simp)
            rw [List.getLast?_append_of_ne_nil _ hne]
            exact ih2.2

/-- Over safe delivered lines the async decoder loop exits naturally and
the post-loop synthetic `Done` is the last yielded chunk. -/
theorem asyncCore_safe_end (p : List Char → Option Json)
    (ls : List (List Char)) (hsafe : ls.all (safeLine p) = true) :
    (asyncStreamCore p ls).2 = .normalEnd ∧
    (asyncStreamCore p ls).1.getLast? = some Chunk.done := by
  induction ls with
  | nil => exact ⟨rfl, rfl⟩
  | cons line rest ih =>
    rw [List.all_cons, Bool.and_eq_true] at hsafe
    obtain ⟨h1, h2⟩ := hsafe
    have ih2 := ih h2
    rcases hdp : dataPayload line with _ | payload
    · simpa [asyncStreamCore, hdp] using ih2
    · simp only [safeLine, hdp] at h1
      by_cases hd : payload = doneChars
      · rw [if_pos hd] at h1
        exact absurd h1 (by simp)
      · rw [if_neg hd] at h1
        rcases hp : p payload with _ | j
        · rw [hp] at h1
          simpa [asyncStreamCore, hdp, hd, hp] using ih2
        · rw [hp] at h1
          rw [Bool.and_eq_true] at h1
          obtain ⟨hobj, herr⟩ := h1
          rw [Bool.not_eq_true'] at herr
          have hres : asyncStreamCore p (line :: rest)
              = (lineChunks j ++ (asyncStreamCore p rest).1, (asyncStreamCore p rest).2) := by
            simp [asyncStreamCore, hdp, hd, hp, hobj, herr]
          rw [hres]
          refine ⟨ih2.1, ?_⟩
          have hne : (asyncStreamCore p rest).1 ≠ [] := by
            intro hc
            rw [hc] at ih2
            exact absurd ih2.2 (by simp)
          rw [List.getLast?_append_of_ne_nil _ hne]
          exact ih2.2

/-- Claim C7, amended: for every stream whose lines contain no `[DONE]`
payload, no error-typed decoded payload, and no payload decoding to a
non-dict value (which would instead raise, cf. C10), the loop exits
normally and the decoder's last yielded chunk is the final synthetic
`Done` emitted after the loop — both in the sync decoder (over its
terminator-stripped lines) and in the async decoder (over a wire whose
delivered, newline-terminated lines satisfy the same condition). -/
theorem C7_synthetic_done_on_natural_end (p : List Char → Option Json)
    (ls wire : List (List Char)) (hsafe : ls.all (safeLine p) = true)
    (hwire : (wire.map (fun l => l ++ [nl])).all (safeLine p) = true) :
    ((syncStream p ls).2 = .normalEnd ∧
      (syncStream p ls).1.getLast? = some Chunk.done) ∧
    ((asyncStream p wire).2 = .normalEnd ∧
      (asyncStream p wire).1.getLast? = some Chunk.done) :=
  ⟨syncStream_safe_end p ls hsafe,
    asyncCore_safe_end p (wire.map (fun l => l ++ [nl])) hwire⟩

/-- Claim C7, witness for the amended theorem: a stream that ends abruptly
after one ordinary content frame, fed to both decoders. -/
theorem C7_witness :
    ([dataLine payloadHi] : List (List Char)).all (safeLine demoParse) = true ∧
    (([dataLine payloadHi] : List (List Char)).map (fun l => l ++ [nl])).all
        (safeLine demoParse) = true ∧
    (((syncStream demoParse [dataLine payloadHi]).2 = .normalEnd ∧
        (syncStream demoParse [dataLine payloadHi]).1.getLast? = some Chunk.done) ∧
      ((asyncStream demoParse [dataLine payloadHi]).2 = .normalEnd ∧
        (asyncStream demoParse [dataLine payloadHi]).1.getLast? = some Chunk.done)) :=
  ⟨rfl, rfl,
    C7_synthetic_done_on_natural_end demoParse [dataLine payloadHi] [dataLine payloadHi]
      rfl rfl⟩

/-! ## Claim C8 -/

/-- Claim C8, confirmed: a `data: ` line whose payload fails to
JSON-decode (and is not the `[DONE]` sentinel, which is matched before any
decoding) is silently skipped — the decoder's output on the remaining
lines is unchanged and the stream as a whole does not fail; blank lines
and lines without the `data: ` marker are likewise ignored.  This holds in
the sync decoder and in the async one, whose delivered lines carry the
trailing newline: a wire frame whose newline-suffixed payload fails to
decode is skipped, a blank wire frame arrives as a bare newline and fails
the marker check, and any delivered line without the marker is ignored by
the loop. -/
theorem C8_malformed_line_skipped (p : List Char → Option Json)
    (payload line dline : List Char) (rest wrest drest : List (List Char))
    (hparse : p payload = none) (hdone : payload ≠ doneChars)
    (hline : dataPayload line = none)
    (hparse2 : p (payload ++ [nl]) = none)
    (hdline : dataPayload dline = none) :
    syncStream p (dataLine payload :: rest) = syncStream p rest ∧
    syncStream p ([] :: rest) = syncStream p rest ∧
    syncStream p (line :: rest) = syncStream p rest ∧
    asyncStream p (dataLine payload :: wrest) = asyncStream p wrest ∧
    asyncStream p ([] :: wrest) = asyncStream p wrest ∧
    asyncStreamCore p (dline :: drest) = asyncStreamCore p drest := by
  refine ⟨?_, rfl, ?_, ?_, rfl, ?_⟩
  · simp [syncStream, dataLine, dataPayload, hparse, hdone]
  · by_cases hemp : line.isEmpty
    · simp [syncStream, hemp]
    · simp [syncStream, hemp, hline]
  · exact asyncCore_cons_skip p payload (wrest.map (fun l => l ++ [nl])) hparse2
  · simp [asyncStreamCore, hdline]

/-- Claim C8, witness: the malformed frame `data: not-json`, a noise line
and a blank line are all skipped by both decoders, and the stream keeps
going with the following well-formed frame. -/
theorem C8_witness :
    demoParse payloadNotJson = none ∧
    payloadNotJson ≠ doneChars ∧
    dataPayload ("noise".toList) = none ∧
    demoParse (payloadNotJson ++ [nl]) = none ∧
    dataPayload ("noise".toList ++ [nl]) = none ∧
    (syncStream demoParse (dataLine payloadNotJson :: [dataLine payloadHi])
        = syncStream demoParse [dataLine payloadHi] ∧
      syncStream demoParse ([] :: [dataLine payloadHi])
        = syncStream demoParse [dataLine payloadHi] ∧
      syncStream demoParse ("noise".toList :: [dataLine payloadHi])
        = syncStream demoParse [dataLine payloadHi] ∧
      asyncStream demoParse (dataLine payloadNotJson :: [dataLine payloadHi])
        = asyncStream demoParse [dataLine payloadHi] ∧
      asyncStream demoParse ([] :: [dataLine payloadHi])
        = asyncStream demoParse [dataLine payloadHi] ∧
      asyncStreamCore demoParse (("noise".toList ++ [nl]) :: [dataLine payloadHi ++ [nl]])
        = asyncStreamCore demoParse [dataLine payloadHi ++ [nl]]) :=
  ⟨rfl, by decide, rfl, rfl, rfl,
    C8_malformed_line_skipped demoParse payloadNotJson ("noise".toList)
      ("noise".toList ++ [nl]) [dataLine payloadHi] [dataLine payloadHi]
      [dataLine payloadHi ++ [nl]] rfl (by decide) rfl rfl rfl⟩

/-! ## Claim C10 -/

/-- Claim C10, confirmed: a `data: ` line whose payload JSON-decodes to a
non-dict value (number, string, array, boolean, null) makes the sync
decoder raise an uncaught error at `parsed.get` — the generator stops with
no chunk from that line and no further line processed — and the same holds
for the async decoder loop; the skip-and-continue treatment is reserved
for payloads whose decoding itself fails. -/
theorem C10_nondict_payload_crashes (p : List Char → Option Json)
    (payload : List Char) (rest rest2 : List (List Char)) (j j2 : Json)
    (hparse : p payload = some j) (hobj : isObj j = false)
    (hdone : payload ≠ doneChars)
    (hparse2 : p (payload ++ [nl]) = some j2) (hobj2 : isObj j2 = false) :
    syncStream p (dataLine payload :: rest) = ([], .crashed) ∧
    asyncStream p (dataLine payload :: rest2) = ([], .crashed) := by
  constructor
  · simp [syncStream, dataLine, dataPayload, hparse, hdone, hobj]
  · show asyncStreamCore p ((dataLine payload ++ [nl]) :: rest2.map (fun l => l ++ [nl]))
      = ([], .crashed)
    have hd : dataLine payload ++ [nl] = dataLine (payload ++ [nl]) := rfl
    rw [hd]
    simp [asyncStreamCore, dataLine, dataPayload, hparse2, append_nl_ne_done payload, hobj2]

/-- Claim C10, witness at the payload `5`. -/
theorem C10_witness :
    demoParse ['5'] = some (Json.num 5) ∧
    isObj (Json.num 5) = false ∧
    (syncStream demoParse (dataLine ['5'] :: [dataLine payloadHi]) = ([], .crashed) ∧
      asyncStream demoParse (dataLine ['5'] :: [dataLine payloadHi]) = ([], .crashed)) :=
  ⟨rfl, rfl,
    C10_nondict_payload_crashes demoParse ['5'] [dataLine payloadHi] [dataLine payloadHi]
      (Json.num 5) (Json.num 5) rfl rfl (by decide) rfl rfl⟩

/-! ## Claim C1 -/

/-- Claim C1, counterexample.  Three concrete requests refute the claim as
stated.  (1) A response with status 300 — outside `[200,300)` and not 429 —
is answered with the parsed body as a success, not with an ApiError,
because `response.ok` is `status < 400`.  (2) For status 500 with body
`\x7b"message":"", "error":"boom"\x7d` the raised error's message is
`"boom"`, not the present-but-empty `body.message`: Python's `or` falls
through on every falsy value, not only on absent ones.  (3) For status 500
with the JSON body `5` the client crashes with an uncaught
`AttributeError` instead of failing with an ApiError. -/
theorem C1_counterexample :
    syncRequest ⟨3, 1⟩ [.resp ⟨300, none, some (Json.obj [("message", Json.str "nope")])⟩] 0
      = (.success (Json.obj [("message", Json.str "nope")]), []) ∧
    ¬ isSuccessOutcome
        (syncRequest ⟨3, 1⟩
          [.resp ⟨300, none, some (Json.obj [("message", Json.str "nope")])⟩] 0).1 = false ∧
    syncRequest ⟨3, 1⟩
        [.resp ⟨500, none,
          some (Json.obj [("message", Json.str ""), ("error", Json.str "boom")])⟩] 0
      = (.failure ⟨Json.str "boom", Json.null, some 500,
          some (Json.obj [("message", Json.str ""), ("error", Json.str "boom")]),
          .generic⟩, []) ∧
    syncRequest ⟨3, 1⟩ [.resp ⟨500, none, some (Json.num 5)⟩] 0 = (.crashAttr, []) := by
  exact ⟨rfl, by decide, rfl, rfl⟩

/-- Claim C1, amended: for every response whose status lies in `[400,600)`
and is not 429, and whose parsed body (or the substituted
`\x7b"error":"Unknown error"\x7d` when parsing fails) is a JSON object, both
clients perform no retry — regardless of remaining retries, the pending
oracle and the retry counter — and fail immediately with an ApiError whose
message is the first Python-truthy value among `body.message`,
`body.error`, `"Request failed"` (falsy present values are skipped, not
only absent ones), whose code is `body.code`, whose statusCode is the
response status, and whose rawResponse is that body.  (A non-object JSON
error body instead raises an uncaught `AttributeError`, cf. the
counterexample.) -/
theorem C1_error_status_fails_without_retry (cfg : Config) (rest : List TransportResult)
    (rc : Nat) (r : HttpResp) (h4 : 400 ≤ r.status) (h6 : r.status < 600)
    (h9 : r.status ≠ 429) (hobj : isObj (r.body.getD unknownErrorBody) = true) :
    syncRequest cfg (.resp r :: rest) rc
      = (.failure ⟨pyOr (pyGet (r.body.getD unknownErrorBody) "message")
            (pyOr (pyGet (r.body.getD unknownErrorBody) "error") (Json.str "Request failed")),
          pyGet (r.body.getD unknownErrorBody) "code", some r.status,
          some (r.body.getD unknownErrorBody), .generic⟩, []) ∧
    asyncRequest cfg (.resp r :: rest) rc
      = (.failure ⟨pyOr (pyGet (r.body.getD unknownErrorBody) "message")
            (pyOr (pyGet (r.body.getD unknownErrorBody) "error") (Json.str "Request failed")),
          pyGet (r.body.getD unknownErrorBody) "code", some r.status,
          some (r.body.getD unknownErrorBody), .generic⟩, []) := by
  have hok : syncOk r.status = false := by
    simp only [syncOk, Bool.or_eq_false_iff, decide_eq_false_iff_not]
    omega
  have hok2 : asyncOk r.status = false := by
    simp only [asyncOk, decide_eq_false_iff_not]
    omega
  constructor
  · simp [syncRequest, h9, hok, hobj, genericErr]
  · simp [asyncRequest, h9, hok2, hobj, genericErr]

/-- Claim C1, witness for the amended theorem: a 404 whose body is
`\x7b"error":"nope"\x7d`, with retries remaining. -/
theorem C1_witness :
    (400 ≤ 404 ∧ 404 < 600 ∧ 404 ≠ 429 ∧
      isObj ((some (Json.obj [("error", Json.str "nope")]) : Option Json).getD
        unknownErrorBody) = true) ∧
    syncRequest ⟨3, 1⟩
        [.resp ⟨404, none, some (Json.obj [("error", Json.str "nope")])⟩,
          .resp ⟨200, none, some Json.null⟩] 0
      = (.failure ⟨Json.str "nope", Json.null, some 404,
          some (Json.obj [("error", Json.str "nope")]), .generic⟩, []) ∧
    asyncRequest ⟨3, 1⟩
        [.resp ⟨404, none, some (Json.obj [("error", Json.str "nope")])⟩,
          .resp ⟨200, none, some Json.null⟩] 0
      = (.failure ⟨Json.str "nope", Json.null, some 404,
          some (Json.obj [("error", Json.str "nope")]), .generic⟩, []) := by
  refine ⟨⟨by decide, by decide, by decide, rfl⟩, ?_⟩
  exact C1_error_status_fails_without_retry ⟨3, 1⟩
    [.resp ⟨200, none, some Json.null⟩] 0
    ⟨404, none, some (Json.obj [("error", Json.str "nope")])⟩
    (by decide) (by decide) (by decide) rfl

/-! ## Claim C2 -/

/-- Claim C2, counterexample.  A 429 response carrying the header
`Retry-After: abc` with retries remaining does NOT fall back to the
configured initialRetryDelay: `int("abc")` raises an uncaught
`ValueError` — computed before the retry-budget test — so no retry happens
and the later successful response is never reached, in both clients. -/
theorem C2_counterexample :
    syncRequest ⟨3, 1⟩
        [.resp ⟨429, some "abc", some unknownErrorBody⟩,
          .resp ⟨200, none, some (Json.str "recovered")⟩] 0
      = (.crashValue, []) ∧
    ¬ isSuccessOutcome
        (syncRequest ⟨3, 1⟩
          [.resp ⟨429, some "abc", some unknownErrorBody⟩,
            .resp ⟨200, none, some (Json.str "recovered")⟩] 0).1 = true ∧
    asyncRequest ⟨3, 1⟩
        [.resp ⟨429, some "abc", some unknownErrorBody⟩,
          .resp ⟨200, none, some (Json.str "recovered")⟩] 0
      = (.crashValue, []) := by
  exact ⟨rfl, by decide, rfl⟩

/-- Claim C2, amended: on a 429 response, the delay is the `Retry-After`
header parsed as an integer when the header is present and non-empty (an
unparseable value raises an uncaught `ValueError` instead of falling back,
and, in the sync client, so does sleeping a negative parsed value), and
the configured initialRetryDelay when the header is absent or empty; if
`retryCount < maxRetries` exactly one retry is attempted after that delay
with `retryCount+1` (no backoff growth); once retries are exhausted — and
provided the delay computation itself did not raise — a RateLimit error
with statusCode 429 and code `RATE_LIMIT` is produced.  Stated for both
clients; delays assume a non-negative configured delay and a non-negative
header value. -/
theorem C2_rate_limit_retry_and_exhaustion (cfg : Config) (rest : List TransportResult)
    (rc : Nat) (b : Option Json) (s : String) (n : Int)
    (hvalid : pyInt s = some n) (hn : 0 ≤ n) (hrd : 0 ≤ cfg.retryDelay) :
    (rc < cfg.maxRetries →
      syncRequest cfg (.resp ⟨429, none, b⟩ :: rest) rc
        = ((syncRequest cfg rest (rc + 1)).1,
            cfg.retryDelay :: (syncRequest cfg rest (rc + 1)).2) ∧
      syncRequest cfg (.resp ⟨429, some s, b⟩ :: rest) rc
        = ((syncRequest cfg rest (rc + 1)).1, (n : Rat) :: (syncRequest cfg rest (rc + 1)).2) ∧
      asyncRequest cfg (.resp ⟨429, none, b⟩ :: rest) rc
        = ((asyncRequest cfg rest (rc + 1)).1,
            cfg.retryDelay :: (asyncRequest cfg rest (rc + 1)).2) ∧
      asyncRequest cfg (.resp ⟨429, some s, b⟩ :: rest) rc
        = ((asyncRequest cfg rest (rc + 1)).1,
            (n : Rat) :: (asyncRequest cfg rest (rc + 1)).2)) ∧
    (¬ rc < cfg.maxRetries →
      syncRequest cfg (.resp ⟨429, some s, b⟩ :: rest) rc = (.failure rateLimitErr, []) ∧
      syncRequest cfg (.resp ⟨429, none, b⟩ :: rest) rc = (.failure rateLimitErr, []) ∧
      asyncRequest cfg (.resp ⟨429, some s, b⟩ :: rest) rc = (.failure rateLimitErr, []) ∧
      rateLimitErr.statusCode = some 429 ∧ rateLimitErr.code = Json.str "RATE_LIMIT") := by
  have hs : s ≠ "" := by
    intro h
    rw [h] at hvalid
    simp [pyInt, parsePyDigits] at hvalid
  have hd429 : delay429 cfg (some s) = some (n : Rat) := by
    simp [delay429, hs, hvalid]
  have hd429n : delay429 cfg none = some cfg.retryDelay := rfl
  have hnneg : ¬ ((n : Rat) < 0) := by
    rw [not_lt]
    exact_mod_cast hn
  have hrdneg : ¬ (cfg.retryDelay < 0) := not_lt.mpr hrd
  constructor
  · intro hlt
    refine ⟨?_, ?_, ?_, ?_⟩
    · simp [syncRequest, delay429, hlt, hrdneg]
    · simp [syncRequest, hd429, hlt, hnneg]
    · simp [asyncRequest, delay429, hlt]
    · simp [asyncRequest, hd429, hlt]
  · intro hge
    refine ⟨?_, ?_, ?_, rfl, rfl⟩
    · simp [syncRequest, hd429, hge]
    · simp [syncRequest, delay429, hge]
    · simp [asyncRequest, hd429, hge]

/-- Claim C2, witness for the amended theorem: header `Retry-After: 7`,
configured delay 1, one retry allowed. -/
theorem C2_witness :
    (pyInt "7" = some 7 ∧ (0 : Int) ≤ 7 ∧ (0 : Rat) ≤ (1 : Rat)) ∧
    ((0 < 1 →
      syncRequest ⟨1, 1⟩ (.resp ⟨429, none, some unknownErrorBody⟩ ::
          [.resp ⟨200, none, some Json.null⟩]) 0
        = ((syncRequest ⟨1, 1⟩ [.resp ⟨200, none, some Json.null⟩] 1).1,
            (1 : Rat) :: (syncRequest ⟨1, 1⟩ [.resp ⟨200, none, some Json.null⟩] 1).2) ∧
      syncRequest ⟨1, 1⟩ (.resp ⟨429, some "7", some unknownErrorBody⟩ ::
          [.resp ⟨200, none, some Json.null⟩]) 0
        = ((syncRequest ⟨1, 1⟩ [.resp ⟨200, none, some Json.null⟩] 1).1,
            ((7 : Int) : Rat) :: (syncRequest ⟨1, 1⟩ [.resp ⟨200, none, some Json.null⟩] 1).2) ∧
      asyncRequest ⟨1, 1⟩ (.resp ⟨429, none, some unknownErrorBody⟩ ::
          [.resp ⟨200, none, some Json.null⟩]) 0
        = ((asyncRequest ⟨1, 1⟩ [.resp ⟨200, none, some Json.null⟩] 1).1,
            (1 : Rat) :: (asyncRequest ⟨1, 1⟩ [.resp ⟨200, none, some Json.null⟩] 1).2) ∧
      asyncRequest ⟨1, 1⟩ (.resp ⟨429, some "7", some unknownErrorBody⟩ ::
          [.resp ⟨200, none, some Json.null⟩]) 0
        = ((asyncRequest ⟨1, 1⟩ [.resp ⟨200, none, some Json.null⟩] 1).1,
            ((7 : Int) : Rat) :: (asyncRequest ⟨1, 1⟩ [.resp ⟨200, none, some Json.null⟩] 1).2)) ∧
    (¬ 0 < 1 →
      syncRequest ⟨1, 1⟩ (.resp ⟨429, some "7", some unknownErrorBody⟩ ::
          [.resp ⟨200, none, some Json.null⟩]) 0 = (.failure rateLimitErr, []) ∧
      syncRequest ⟨1, 1⟩ (.resp ⟨429, none, some unknownErrorBody⟩ ::
          [.resp ⟨200, none, some Json.null⟩]) 0 = (.failure rateLimitErr, []) ∧
      asyncRequest ⟨1, 1⟩ (.resp ⟨429, some "7", some unknownErrorBody⟩ ::
          [.resp ⟨200, none, some Json.null⟩]) 0 = (.failure rateLimitErr, []) ∧
      rateLimitErr.statusCode = some 429 ∧ rateLimitErr.code = Json.str "RATE_LIMIT")) :=
  ⟨⟨rfl, by decide, by decide⟩,
    C2_rate_limit_retry_and_exhaustion ⟨1, 1⟩ [.resp ⟨200, none, some Json.null⟩] 0
      (some unknownErrorBody) "7" 7 rfl (by decide) (by decide)⟩

/-! ## Claim C3 -/

/-- Claim C3, confirmed: a non-timeout transport failure is retried with
linear backoff `initialRetryDelay * (retryCount+1)` while
`retryCount < maxRetries`, and once retries are exhausted the call fails
with a NetworkError whose message wraps the underlying failure
description; with `maxRetries = 3`, two consecutive connection failures
followed by a success produce delays `initialRetryDelay * 1` then
`initialRetryDelay * 2` and the final result is the success body.  Stated
for both clients; delays assume a non-negative configured delay (the
spec's duration type). -/
theorem C3_network_failure_linear_backoff (cfg : Config) (m m1 m2 : String)
    (rest : List TransportResult) (rc : Nat) (d : Rat) (body0 : Json)
    (hrd : 0 ≤ cfg.retryDelay) (hd : 0 ≤ d) :
    (rc < cfg.maxRetries →
      syncRequest cfg (.netFail m :: rest) rc
        = ((syncRequest cfg rest (rc + 1)).1,
            cfg.retryDelay * ((rc : Rat) + 1) :: (syncRequest cfg rest (rc + 1)).2) ∧
      asyncRequest cfg (.netFail m :: rest) rc
        = ((asyncRequest cfg rest (rc + 1)).1,
            cfg.retryDelay * ((rc : Rat) + 1) :: (asyncRequest cfg rest (rc + 1)).2)) ∧
    (¬ rc < cfg.maxRetries →
      syncRequest cfg (.netFail m :: rest) rc = (.failure (networkErr m), []) ∧
      asyncRequest cfg (.netFail m :: rest) rc = (.failure (networkErr m), []) ∧
      (networkErr m).message = Json.str ("Network error: " ++ m) ∧
      (networkErr m).code = Json.str "NETWORK_ERROR") ∧
    (syncRequest ⟨3, d⟩ [.netFail m1, .netFail m2, .resp ⟨200, none, some body0⟩] 0
        = (.success body0, [d * 1, d * 2]) ∧
      asyncRequest ⟨3, d⟩ [.netFail m1, .netFail m2, .resp ⟨200, none, some body0⟩] 0
        = (.success body0, [d * 1, d * 2])) := by
  have hnn : ¬ (cfg.retryDelay * ((rc : Rat) + 1) < 0) := by
    rw [not_lt]
    exact mul_nonneg hrd (by positivity)
  have hd0 : ¬ (d < 0) := not_lt.mpr hd
  have hd2 : ¬ (d * 2 < 0) := by
    rw [not_lt]
    exact mul_nonneg hd (by norm_num)
  refine ⟨fun hlt => ⟨?_, ?_⟩, fun hge => ⟨?_, ?_, rfl, rfl⟩, ?_, ?_⟩
  · simp [syncRequest, hlt, hnn]
  · simp [asyncRequest, hlt]
  · simp [syncRequest, hge]
  · simp [asyncRequest, hge]
  · simp [syncRequest, hd0, syncOk]
    norm_num [hd2]
  · simp [asyncRequest, asyncOk]
    norm_num

/-- Claim C3, witness: delay 1, two failures then success. -/
theorem C3_witness :
    ((0 : Rat) ≤ 2 ∧ (0 : Rat) ≤ 2) ∧
    ((0 < 3 →
      syncRequest ⟨3, 2⟩ (.netFail "refused" :: [.resp ⟨200, none, some Json.null⟩]) 0
        = ((syncRequest ⟨3, 2⟩ [.resp ⟨200, none, some Json.null⟩] 1).1,
            (2 : Rat) * ((0 : Nat) + 1) ::
              (syncRequest ⟨3, 2⟩ [.resp ⟨200, none, some Json.null⟩] 1).2) ∧
      asyncRequest ⟨3, 2⟩ (.netFail "refused" :: [.resp ⟨200, none, some Json.null⟩]) 0
        = ((asyncRequest ⟨3, 2⟩ [.resp ⟨200, none, some Json.null⟩] 1).1,
            (2 : Rat) * ((0 : Nat) + 1) ::
              (asyncRequest ⟨3, 2⟩ [.resp ⟨200, none, some Json.null⟩] 1).2)) ∧
    (¬ 0 < 3 →
      syncRequest ⟨3, 2⟩ (.netFail "refused" :: [.resp ⟨200, none, some Json.null⟩]) 0
        = (.failure (networkErr "refused"), []) ∧
      asyncRequest ⟨3, 2⟩ (.netFail "refused" :: [.resp ⟨200, none, some Json.null⟩]) 0
        = (.failure (networkErr "refused"), []) ∧
      (networkErr "refused").message = Json.str ("Network error: " ++ "refused") ∧
      (networkErr "refused").code = Json.str "NETWORK_ERROR") ∧
    (syncRequest ⟨3, 2⟩ [.netFail "c1", .netFail "c2", .resp ⟨200, none, some (Json.str "yay")⟩] 0
        = (.success (Json.str "yay"), [2 * 1, 2 * 2]) ∧
      asyncRequest ⟨3, 2⟩ [.netFail "c1", .netFail "c2", .resp ⟨200, none, some (Json.str "yay")⟩] 0
        = (.success (Json.str "yay"), [2 * 1, 2 * 2]))) :=
  ⟨⟨by decide, by decide⟩,
    C3_network_failure_linear_backoff ⟨3, 2⟩ "refused" "c1" "c2"
      [.resp ⟨200, none, some Json.null⟩] 0 2 (Json.str "yay") (by decide) (by decide)⟩

/-! ## Claim C4 -/

/-- Claim C4, counterexample.  A response with status 304 — outside
`[200,300)` and not 429 — is treated as a success by both clients
(`response.ok` is `status < 400`), returning the parsed body instead of
taking the error path, so "only statuses in [200,300) are treated as
success" is false. -/
theorem C4_counterexample :
    syncRequest ⟨3, 1⟩ [.resp ⟨304, none, some (Json.obj [("a", Json.num 1)])⟩] 0
      = (.success (Json.obj [("a", Json.num 1)]), []) ∧
    asyncRequest ⟨3, 1⟩ [.resp ⟨304, none, some (Json.obj [("a", Json.num 1)])⟩] 0
      = (.success (Json.obj [("a", Json.num 1)]), []) ∧
    ¬ isSuccessOutcome
        (syncRequest ⟨3, 1⟩ [.resp ⟨304, none, some (Json.obj [("a", Json.num 1)])⟩] 0).1
      = false := by
  exact ⟨rfl, rfl, by decide⟩

/-- Claim C4, amended: whenever the response body parses as JSON, the sync
client returns it unchanged for every non-429 status outside `[400,600)`
(hence in particular for all of `[200,300)`, but also for 3xx and >= 600
statuses), and the async client for every non-429 status below 400; every
status in `[400,600)` other than 429 takes the error path — the outcome is
never a success — in both clients. -/
theorem C4_success_iff_ok (cfg : Config) (rest : List TransportResult) (rc : Nat)
    (st : Nat) (ra : Option String) (b : Option Json) (j : Json) (hb : b = some j) :
    ((st < 400 ∨ 600 ≤ st) → st ≠ 429 →
      syncRequest cfg (.resp ⟨st, ra, b⟩ :: rest) rc = (.success j, [])) ∧
    (st < 400 → st ≠ 429 →
      asyncRequest cfg (.resp ⟨st, ra, b⟩ :: rest) rc = (.success j, [])) ∧
    (400 ≤ st → st < 600 → st ≠ 429 →
      isSuccessOutcome (syncRequest cfg (.resp ⟨st, ra, b⟩ :: rest) rc).1 = false ∧
      isSuccessOutcome (asyncRequest cfg (.resp ⟨st, ra, b⟩ :: rest) rc).1 = false) := by
  subst hb
  refine ⟨fun hok h9 => ?_, fun hok h9 => ?_, fun h4 h6 h9 => ⟨?_, ?_⟩⟩
  · have hok' : syncOk st = true := by
      simp only [syncOk, Bool.or_eq_true, decide_eq_true_eq]
      omega
    simp [syncRequest, h9, hok']
  · have hok' : asyncOk st = true := by
      simp only [asyncOk, decide_eq_true_eq]
      omega
    simp [asyncRequest, h9, hok']
  · have hok' : syncOk st = false := by
      simp only [syncOk, Bool.or_eq_false_iff, decide_eq_false_iff_not]
      omega
    rcases hobj : isObj j with _ | _
    · simp [syncRequest, h9, hok', hobj, isSuccessOutcome]
    · simp [syncRequest, h9, hok', hobj, isSuccessOutcome]
  · have hok' : asyncOk st = false := by
      simp only [asyncOk, decide_eq_false_iff_not]
      omega
    rcases hobj : isObj j with _ | _
    · simp [asyncRequest, h9, hok', hobj, isSuccessOutcome]
    · simp [asyncRequest, h9, hok', hobj, isSuccessOutcome]

/-- Claim C4, witness for the amended theorem at status 201. -/
theorem C4_witness :
    (some (Json.str "created") = some (Json.str "created")) ∧
    ((201 < 400 ∨ 600 ≤ 201) → 201 ≠ 429 →
      syncRequest ⟨3, 1⟩ [.resp ⟨201, none, some (Json.str "created")⟩] 0
        = (.success (Json.str "created"), [])) ∧
    (201 < 400 → 201 ≠ 429 →
      asyncRequest ⟨3, 1⟩ [.resp ⟨201, none, some (Json.str "created")⟩] 0
        = (.success (Json.str "created"), [])) ∧
    (400 ≤ 201 → 201 < 600 → 201 ≠ 429 →
      isSuccessOutcome
          (syncRequest ⟨3, 1⟩ [.resp ⟨201, none, some (Json.str "created")⟩] 0).1 = false ∧
      isSuccessOutcome
          (asyncRequest ⟨3, 1⟩ [.resp ⟨201, none, some (Json.str "created")⟩] 0).1 = false) :=
  ⟨rfl, C4_success_iff_ok ⟨3, 1⟩ [] 0 201 none (some (Json.str "created"))
    (Json.str "created") rfl⟩

/-! ## Claim C9 -/

/-- On tame transport oracles — bodies parse, statuses below 600,
`Retry-After` absent, empty or a non-negative integer — the synchronous
and asynchronous executors make identical classification and retry
decisions: same outcome, same delay sequence. -/
theorem execEquiv (cfg : Config) (hrd : 0 ≤ cfg.retryDelay) :
    ∀ (oracle : List TransportResult), oracle.all tameResult = true →
      ∀ rc, syncRequest cfg oracle rc = asyncRequest cfg oracle rc := by
  intro oracle
  induction oracle with
  | nil => intro _ _; rfl
  | cons t rest ih =>
    intro hall rc
    rw [List.all_cons, Bool.and_eq_true] at hall
    obtain ⟨ht, hrest⟩ := hall
    have ihr := ih hrest
    cases t with
    | timedOut => rfl
    | netFail m =>
      have hnn : ¬ (cfg.retryDelay * ((rc : Rat) + 1) < 0) := by
        rw [not_lt]
        exact mul_nonneg hrd (by positivity)
      by_cases hlt : rc < cfg.maxRetries
      · simp [syncRequest, asyncRequest, hlt, hnn, ihr (rc + 1)]
      · simp [syncRequest, asyncRequest, hlt]
    | resp r =>
      obtain ⟨st, ra, b⟩ := r
      simp only [tameResult, Bool.and_eq_true] at ht
      obtain ⟨⟨hbody, hst⟩, hra⟩ := ht
      rw [decide_eq_true_eq] at hst
      by_cases h429 : st = 429
      · subst h429
        have hdex : ∃ d, delay429 cfg ra = some d ∧ 0 ≤ d := by
          cases ra with
          | none => exact ⟨cfg.retryDelay, rfl, hrd⟩
          | some s =>
            rw [Bool.or_eq_true] at hra
            rcases hra with h | h
            · rw [decide_eq_true_eq] at h
              exact ⟨cfg.retryDelay, by simp [delay429, h], hrd⟩
            · rcases hp : pyInt s with _ | n
              · rw [hp] at h
                exact absurd h (by simp)
              · rw [hp] at h
                rw [decide_eq_true_eq] at h
                have hs : s ≠ "" := by
                  intro he
                  rw [he] at hp
                  simp [pyInt, parsePyDigits] at hp
                refine ⟨(n : Rat), by simp [delay429, hs, hp], ?_⟩
                exact_mod_cast h
        obtain ⟨d, hd, hdnn⟩ := hdex
        have hdneg : ¬ (d < 0) := not_lt.mpr hdnn
        by_cases hlt : rc < cfg.maxRetries
        · simp [syncRequest, asyncRequest, hd, hlt, hdneg, ihr (rc + 1)]
        · simp [syncRequest, asyncRequest, hd, hlt]
      · obtain ⟨j, hj⟩ := Option.isSome_iff_exists.mp hbody
        subst hj
        by_cases hok : st < 400
        · have h1 : syncOk st = true := by
            simp only [syncOk, Bool.or_eq_true, decide_eq_true_eq]
            omega
          have h2 : asyncOk st = true := by
            simp only [asyncOk, decide_eq_true_eq]
            omega
          simp [syncRequest, asyncRequest, h429, h1, h2]
        · have h1 : syncOk st = false := by
            simp only [syncOk, Bool.or_eq_false_iff, decide_eq_false_iff_not]
            omega
          have h2 : asyncOk st = false := by
            simp only [asyncOk, decide_eq_false_iff_not]
            omega
          simp [syncRequest, asyncRequest, h429, h1, h2]

/-- Claim C9, counterexample.  Identical observable behaviour fails in two
concrete places.  Streaming: on the wire `data: \x7b"content":"Hi"\x7d` /
`data: \x7b"content":" there"\x7d` / `data: [DONE]`, the sync decoder
yields 4 chunks (`Text`, `Text`, `Done` from the sentinel, plus the
post-loop `Done`) while the async decoder — whose line iterator keeps the
trailing newline, so the `[DONE]` sentinel comparison never matches and
the frame is skipped as malformed JSON — yields only 3 (`Text`, `Text`,
one synthetic `Done`).  Executor classification: on a response with status
700, `requests`' `ok` (`raise_for_status` only fires on `[400,600)`) makes
the sync client return the body as a success, while aiohttp's `ok`
(`status < 400`) sends the async client down the error path. -/
theorem C9_counterexample :
    (syncStream demoParse demoWire).1.length = 4 ∧
    (asyncStream demoParse demoWire).1.length = 3 ∧
    syncStream demoParse demoWire ≠ asyncStream demoParse demoWire ∧
    syncRequest ⟨3, 1⟩ [.resp ⟨700, none, some unknownErrorBody⟩] 0
      = (.success unknownErrorBody, []) ∧
    asyncRequest ⟨3, 1⟩ [.resp ⟨700, none, some unknownErrorBody⟩] 0
      = (.failure (genericErr 700 unknownErrorBody), []) := by
  refine ⟨rfl, rfl, fun h => absurd (congrArg (fun x => x.1.length) h) (by decide),
    rfl, rfl⟩

/-- Claim C9, amended: the two clients construct the same request —
method, URL `base_url.rstrip("/") + endpoint`, query parameters in
insertion order, headers, JSON body — at the level the SDK determines it
(the byte-level percent-encoding of the query pairs is delegated to
urllib respectively aiohttp/yarl); the executors behave identically — same
outcome and same retry/backoff delay sequence — for every transport
history in which response bodies parse as JSON, statuses are below 600 and
`Retry-After` headers are absent, empty or non-negative integers (with a
non-negative configured delay; outside this envelope they genuinely
diverge, e.g. at status 700, cf. the counterexample); the streaming
decoders, however, are NOT observationally identical: the async line
iterator keeps the trailing newline, so `data: [DONE]` frames are never
recognized as the sentinel and the two clients can yield different chunk
sequences from the same wire. -/
theorem C9_protocol_equivalence_scope (cfg : Config) (hrd : 0 ≤ cfg.retryDelay)
    (apiKey : Option String) (baseUrl meth endpoint : String)
    (params : List (String × String)) (data : Option Json) :
    syncBuildRequest apiKey baseUrl meth endpoint params data
      = asyncBuildRequest apiKey baseUrl meth endpoint params data ∧
    (∀ (oracle : List TransportResult) (rc : Nat), oracle.all tameResult = true →
      syncRequest cfg oracle rc = asyncRequest cfg oracle rc) ∧
    syncStream demoParse demoWire ≠ asyncStream demoParse demoWire := by
  refine ⟨rfl, fun oracle rc h => execEquiv cfg hrd oracle h rc,
    fun h => absurd (congrArg (fun x => x.1.length) h) (by decide)⟩

/-- Claim C9, witness: the request-construction agreement at a concrete
authenticated GET with one query parameter, and the executor agreement
applied to a concrete tame history (a 429 with `Retry-After: 7`, then a
connection failure, then a success). -/
theorem C9_witness :
    syncBuildRequest (some "key1") "https://infinityassistant.io/api/" "GET"
        "/memory/retrieve" [("key", "k 1")] none
      = asyncBuildRequest (some "key1") "https://infinityassistant.io/api/" "GET"
        "/memory/retrieve" [("key", "k 1")] none ∧
    syncRequest ⟨3, 1⟩
        [.resp ⟨429, some "7", some Json.null⟩, .netFail "x",
          .resp ⟨200, none, some (Json.str "fin")⟩] 0
      = asyncRequest ⟨3, 1⟩
        [.resp ⟨429, some "7", some Json.null⟩, .netFail "x",
          .resp ⟨200, none, some (Json.str "fin")⟩] 0 ∧
    syncStream demoParse demoWire ≠ asyncStream demoParse demoWire :=
  ⟨(C9_protocol_equivalence_scope ⟨3, 1⟩ (by decide) (some "key1")
      "https://infinityassistant.io/api/" "GET" "/memory/retrieve"
      [("key", "k 1")] none).1,
    (C9_protocol_equivalence_scope ⟨3, 1⟩ (by decide) (some "key1")
      "https://infinityassistant.io/api/" "GET" "/memory/retrieve"
      [("key", "k 1")] none).2.1
      [.resp ⟨429, some "7", some Json.null⟩, .netFail "x",
        .resp ⟨200, none, some (Json.str "fin")⟩] 0 rfl,
    (C9_protocol_equivalence_scope ⟨3, 1⟩ (by decide) (some "key1")
      "https://infinityassistant.io/api/" "GET" "/memory/retrieve"
      [("key", "k 1")] none).2.2⟩
